import Mathlib

/-!
Shallow embedding of the whatsvector repository core:
parsing of WhatsApp export lines (src/whatsvector/types/data.py),
dataset construction and placeholder filtering (WhatsappData),
the loader abstraction (src/whatsvector/data/loaders/loader.py) and the
Qdrant-backed persist step, modelled against an abstract call log.
-/

namespace WhatsVector

/-- Calendar date as produced by Python `datetime.strptime` (year, month, day);
the time component of a message timestamp is discarded by `message_date`. -/
structure PyDate where
  year : Nat
  month : Nat
  day : Nat
deriving DecidableEq, Repr

/-- Gregorian leap-year rule, as used by Python `datetime`. -/
def isLeapYear (y : Nat) : Bool :=
  y % 4 == 0 && (y % 100 != 0 || y % 400 == 0)

/-- Number of days in a month of a given year (Gregorian calendar). -/
def daysInMonth (y m : Nat) : Nat :=
  if m = 2 then (if isLeapYear y then 29 else 28)
  else if m = 4 ∨ m = 6 ∨ m = 9 ∨ m = 11 then 30
  else 31

/-- Numeric value of an ASCII digit character. -/
def digitVal (c : Char) : Nat := c.toNat - '0'.toNat

/-- Python `datetime.strptime(s, "%d/%m/%y")` restricted to the
two-digit/two-digit/two-digit shape that the message grammar produces
(Python's strptime additionally accepts unpadded fields, which the
bracketed-timestamp grammar can never emit).  `%y` uses Python's pivot:
values 00-68 map to 2000-2068 and 69-99 to 1969-1999.  Day and month are
validated as a real calendar date; failure models the `ValueError`
raised by strptime. -/
def strptime_dmy : List Char → Option PyDate
  | [d1, d2, '/', m1, m2, '/', y1, y2] =>
    if d1.isDigit ∧ d2.isDigit ∧ m1.isDigit ∧ m2.isDigit ∧ y1.isDigit ∧ y2.isDigit then
      let day := 10 * digitVal d1 + digitVal d2
      let month := 10 * digitVal m1 + digitVal m2
      let yy := 10 * digitVal y1 + digitVal y2
      let year := if yy ≤ 68 then 2000 + yy else 1900 + yy
      if 1 ≤ month ∧ month ≤ 12 ∧ 1 ≤ day ∧ day ≤ daysInMonth year month then
        some ⟨year, month, day⟩
      else none
    else none
  | _ => none

/-- Days in all years strictly before year `y` (proleptic Gregorian). -/
def daysBeforeYear (y : Nat) : Nat :=
  365 * (y - 1) + (y - 1) / 4 + (y - 1) / 400 - (y - 1) / 100

/-- Days in the months of year `y` strictly before month `m`. -/
def daysBeforeMonth (y m : Nat) : Nat :=
  (List.range (m - 1)).foldl (fun acc i => acc + daysInMonth y (i + 1)) 0

/-- Python `date.toordinal()`: day number with 0001-01-01 as day 1. -/
def toOrdinal (d : PyDate) : Nat :=
  daysBeforeYear d.year + daysBeforeMonth d.year d.month + d.day

/-- Python `date.weekday()`: Monday = 0 … Sunday = 6
(0001-01-01 is a Monday in the proleptic Gregorian calendar). -/
def pyWeekday (d : PyDate) : Nat := (toOrdinal d + 6) % 7

/-- Full weekday name, as produced by strftime `%A` in the C locale. -/
def weekdayName : Nat → String
  | 0 => "Monday"
  | 1 => "Tuesday"
  | 2 => "Wednesday"
  | 3 => "Thursday"
  | 4 => "Friday"
  | 5 => "Saturday"
  | _ => "Sunday"

/-- Full month name, as produced by strftime `%B` in the C locale. -/
def monthName : Nat → String
  | 1 => "January"
  | 2 => "February"
  | 3 => "March"
  | 4 => "April"
  | 5 => "May"
  | 6 => "June"
  | 7 => "July"
  | 8 => "August"
  | 9 => "September"
  | 10 => "October"
  | 11 => "November"
  | _ => "December"

/-- Zero-padded two-digit rendering of a day number (strftime `%d`). -/
def pad2 (n : Nat) : String := if n < 10 then "0" ++ toString n else toString n

/-- Python `strftime("%A, %d %B %Y")`, the format used both in
`WhatsappMessage.rich_content` and in the Qdrant metadata `when` field. -/
def strftime_AdBY (d : PyDate) : String :=
  weekdayName (pyWeekday d) ++ ", " ++ pad2 d.day ++ " " ++ monthName d.month
    ++ " " ++ toString d.year

/-- The exception raised by `WhatsappMessage.from_raw`
(src/whatsvector/exceptions/data.py: it stores the offending row and a
reason string). -/
structure InvalidRowError where
  row : String
  reason : String
deriving DecidableEq, Repr

/-- One parsed chat message (src/whatsvector/types/data.py, class
`WhatsappMessage`): raw timestamp string, sender and content. -/
structure WhatsappMessage where
  timestamp : String
  sender : String
  content : String
deriving DecidableEq, Repr

/-- Matches the fixed-width bracketed-timestamp part of the regex
`^\[(\d{2}/\d{2}/\d{2}), (\d{2}:\d{2}:\d{2})\] ` and returns the date
group, the time group and the unconsumed remainder.  ASCII digits model
the `\d` class (exact on ASCII input; Python additionally accepts other
Unicode decimal digits). -/
def matchHeader : List Char → Option (String × String × List Char)
  | '[' :: d1 :: d2 :: '/' :: m1 :: m2 :: '/' :: y1 :: y2 :: ',' :: ' ' ::
      h1 :: h2 :: ':' :: n1 :: n2 :: ':' :: s1 :: s2 :: ']' :: ' ' :: rest =>
    if d1.isDigit ∧ d2.isDigit ∧ m1.isDigit ∧ m2.isDigit ∧ y1.isDigit ∧ y2.isDigit ∧
       h1.isDigit ∧ h2.isDigit ∧ n1.isDigit ∧ n2.isDigit ∧ s1.isDigit ∧ s2.isDigit then
      some (String.mk [d1, d2, '/', m1, m2, '/', y1, y2],
            String.mk [h1, h2, ':', n1, n2, ':', s1, s2], rest)
    else none
  | _ => none

/-- The regex fragment `(.*)$`: `.` does not match a newline and `$`
matches at the end of the string or just before one trailing newline, so
the group captures the whole remainder provided it holds no interior
newline. -/
def dotStarDollar (l : List Char) : Option (List Char) :=
  if l.contains '\n' then
    match l.getLast? with
    | some '\n' => if l.dropLast.contains '\n' then none else some l.dropLast
    | _ => none
  else some l

/-- The regex fragment `(.*?): (.*)$` applied after the header: a
non-greedy scan for the first `: ` occurrence whose remainder satisfies
`(.*)$`; the characters consumed by the non-greedy group may not include
a newline.  `acc` holds the reversed sender characters scanned so far. -/
def findSplit : List Char → List Char → Option (List Char × List Char)
  | _, [] => none
  | acc, c :: rest =>
    if c = ':' ∧ rest.head? = some ' ' ∧ (dotStarDollar rest.tail).isSome then
      some (acc.reverse, (dotStarDollar rest.tail).getD [])
    else if c = '\n' then none
    else findSplit (c :: acc) rest

/-- Full match of `^\[(\d{2}/\d{2}/\d{2}), (\d{2}:\d{2}:\d{2})\] (.*?): (.*)$`
returning the date, time, sender and content groups. -/
def fromRawCore (l : List Char) : Option (String × String × String × String) :=
  (matchHeader l).bind fun x =>
    (findSplit [] x.2.2).map fun sc =>
      (x.1, x.2.1, String.mk sc.1, String.mk sc.2)

/-- `WhatsappMessage.from_raw`: re.match against the line grammar; on
success the timestamp field is `f"{date}, {time}"`, on failure an
`InvalidRowError` carrying the raw line and a fixed reason is raised. -/
def WhatsappMessage.from_raw (raw : String) : Except InvalidRowError WhatsappMessage :=
  match fromRawCore raw.data with
  | none => .error ⟨raw, "Message does not match expected format."⟩
  | some (date, time, sender, content) =>
    .ok ⟨date ++ ", " ++ time, sender, content⟩

/-- Characters stripped by Python `str.strip("[] ")`. -/
def bracketSpace : List Char := ['[', ']', ' ']

/-- Python `s.strip(chars)` on a character list: drop members of `cs`
from both ends. -/
def pyStripChars (cs : List Char) (l : List Char) : List Char :=
  ((l.dropWhile (cs.contains ·)).reverse.dropWhile (cs.contains ·)).reverse

/-- `WhatsappMessage.message_date`: take the timestamp text before the
first comma (`split(",")[0]`), strip `"[] "` from both ends, and parse
it with `strptime(_, "%d/%m/%y")`.  `none` models the `ValueError`
raised by strptime on a date that is not a real calendar date; the
property is computed lazily (a `cached_property`), not at parse time. -/
def WhatsappMessage.message_date (m : WhatsappMessage) : Option PyDate :=
  strptime_dmy (pyStripChars bracketSpace (m.timestamp.data.takeWhile (· ≠ ',')))

/-- `WhatsappMessage.rich_content`: sender, weekday-qualified date and
content folded into one embeddable string; computing it evaluates
`message_date`, so it shares that derivation's possible `ValueError`. -/
def WhatsappMessage.rich_content (m : WhatsappMessage) : Option String :=
  (m.message_date).map fun d =>
    "Sender: " ++ m.sender ++ "\nWhen: " ++ strftime_AdBY d ++ "\nMessage: " ++ m.content

/-- English omitted-media placeholders (the list literal in
`WhatsappData.from_txt_file`; membership coincides with the module-level
set `KNOWN_NOT_FOUND_PLACEHOLDERS["en"]`). -/
def enPlaceholders : List String :=
  ["image omitted", "video omitted", "audio omitted", "document omitted"]

/-- Italian omitted-media placeholders. -/
def itPlaceholders : List String :=
  ["immagine omessa", "video omesso", "audio omesso", "documento omesso"]

/-- `WhatsappData`: the parsed messages of one export file together with
the active placeholder list. -/
structure WhatsappData where
  messages : List WhatsappMessage
  not_found_placeholders : List String
deriving DecidableEq, Repr

/-- Python ASCII whitespace stripped by `str.strip()` (the Unicode
whitespace code points never occur in the inputs modelled here). -/
def isPyWhitespace (c : Char) : Bool :=
  c = ' ' ∨ c = '\t' ∨ c = '\n' ∨ c = '\r' ∨ c = '\x0b' ∨ c = '\x0c'

/-- Python `line.strip()` on a character list. -/
def pyStrip (l : List Char) : List Char :=
  ((l.dropWhile isPyWhitespace).reverse.dropWhile isPyWhitespace).reverse

/-- `WhatsappData.from_txt_file` with the file contents given as its
list of lines: strip each line, skip blank lines, parse each remaining
line with `from_raw` and silently skip rows that raise `InvalidRowError`;
the placeholder list is chosen by the declared language. -/
def WhatsappData.from_txt_file (lines : List String) (app_language : String) :
    WhatsappData :=
  let placeholders := if app_language = "it" then itPlaceholders else enPlaceholders
  let messages := lines.filterMap fun line =>
    let stripped := pyStrip line.data
    if stripped = [] then none
    else (WhatsappMessage.from_raw (String.mk stripped)).toOption
  ⟨messages, placeholders⟩

/-- `WhatsappData.clean_messages`: the messages whose content is not in
the placeholder list, recomputed from `messages` on every access. -/
def WhatsappData.clean_messages (d : WhatsappData) : List WhatsappMessage :=
  d.messages.filter fun m => !d.not_found_placeholders.contains m.content

/-- `WhatsappData.total_messages`. -/
def WhatsappData.total_messages (d : WhatsappData) : Nat := d.messages.length

/-- `WhatsappData.total_clean_messages`. -/
def WhatsappData.total_clean_messages (d : WhatsappData) : Nat :=
  d.clean_messages.length

/-- The exceptions that can escape the loading pipeline: `OSError` from
`open()` on an unreadable file, and `InvalidRowError` from row parsing. -/
inductive PyError where
  | osError (path : String)
  | invalidRow (row : String) (reason : String)
deriving DecidableEq, Repr

/-- Whether an exception is an `InvalidRowError` — the only class named
by the `except` clause in `DataLoader.load_data`. -/
def PyError.isInvalidRow : PyError → Bool
  | .invalidRow _ _ => true
  | _ => false

/-- Reading one file: the file system is a partial map from path to the
file's lines; an unreadable file makes `open()` raise `OSError`. -/
def readTxtFile (fs : String → Option (List String)) (path : String) :
    Except PyError (List String) :=
  match fs path with
  | none => .error (.osError path)
  | some lines => .ok lines

/-- `DataLoader.load_data`: iterate the file list in order; for each
file run `WhatsappData.from_txt_file(wa_file)` (leaving `app_language`
at its default `"en"`) and persist the dataset; the surrounding
`except InvalidRowError` clause catches only that class — re-raising it
when `raise_errors` is set and skipping the file otherwise — while every
other exception (in particular the `OSError` of an unreadable file)
propagates uncaught.  The result is the ordered list of datasets that
were persisted before the call returned or raised, paired with the
exception that escaped, if any. -/
def loadData (fs : String → Option (List String)) (wa_files : List String)
    (raise_errors : Bool) : List WhatsappData × Option PyError :=
  match wa_files with
  | [] => ([], none)
  | f :: rest =>
    match readTxtFile fs f with
    | .ok lines =>
      let d := WhatsappData.from_txt_file lines "en"
      let r := loadData fs rest raise_errors
      (d :: r.1, r.2)
    | .error e =>
      if e.isInvalidRow && !raise_errors then loadData fs rest raise_errors
      else ([], some e)

/-- The state stored by `DataLoader.__init__`: the file list and the
strictness flag. -/
structure DataLoaderState where
  wa_files : List String
  raise_errors : Bool
deriving DecidableEq, Repr

/-- `DataLoader.__init__(self, wa_files, *args, raise_errors=False,
**kwargs)`: binds `wa_files`, absorbs any extra positional arguments
into `*args` (ignored), and stores the keyword-only `raise_errors`. -/
def DataLoader.init (wa_files : List String) (varargs : List Bool)
    (raise_errors : Bool) : DataLoaderState :=
  let _ := varargs
  ⟨wa_files, raise_errors⟩

/-- `InMemoryDataLoader.__init__(self, wa_files, *args,
raise_errors=False, **kwargs)` runs `super().__init__(wa_files,
raise_errors, *args, **kwargs)`: `raise_errors` is forwarded
positionally, so Python binds it into the parent's `*args` while the
parent's keyword-only `raise_errors` parameter keeps its default
`False`. -/
def InMemoryDataLoader.init (wa_files : List String) (raise_errors : Bool) :
    DataLoaderState :=
  DataLoader.init wa_files [raise_errors] false

/-- `QdrantDataLoader.__init__` forwards to the parent with the same
`super().__init__(wa_files, raise_errors, *args, **kwargs)` call as the
in-memory variant, losing the flag the same way. -/
def QdrantDataLoader.init (wa_files : List String) (raise_errors : Bool) :
    DataLoaderState :=
  DataLoader.init wa_files [raise_errors] false

/-- Metadata payload uploaded for one message by `QdrantDataLoader._load`
(exactly the four dictionary keys of the comprehension). -/
structure QdrantPayload where
  sender : String
  whenStr : String
  content : String
  document : String
deriving DecidableEq, Repr

/-- Payload built for one clean message: `sender`, `when` (the message
date under strftime `%A, %d %B %Y`), `content` (raw text) and `document`
(the `rich_content` string); `none` models the `ValueError` that
computing the date of a grammar-valid but calendar-invalid timestamp
raises. -/
def payloadOf (m : WhatsappMessage) : Option QdrantPayload :=
  match m.message_date, m.rich_content with
  | some d, some rc => some ⟨m.sender, strftime_AdBY d, m.content, rc⟩
  | _, _ => none

/-- The payload list of `QdrantDataLoader._load` over the dataset's
clean messages; fails as a whole if any message date is invalid. -/
def buildPayloads (msgs : List WhatsappMessage) : Option (List QdrantPayload) :=
  msgs.mapM payloadOf

/-- The embeddable documents of the upload call: one `rich_content`
string per clean message. -/
def buildDocs (msgs : List WhatsappMessage) : Option (List String) :=
  msgs.mapM WhatsappMessage.rich_content

/-- Calls issued against the external Qdrant service. -/
inductive QdrantCall where
  | createCollection (name : String) (vectorSize : Nat) (distance : String)
  | uploadCollection (name : String) (docs : List String)
      (payload : List QdrantPayload)
deriving DecidableEq, Repr

/-- Whether a recorded service call is a `create_collection` call. -/
def QdrantCall.isCreate : QdrantCall → Bool
  | .createCollection _ _ _ => true
  | _ => false

/-- Whether a recorded service call is an upload call. -/
def QdrantCall.isUpload : QdrantCall → Bool
  | .uploadCollection _ _ _ => true
  | _ => false

/-- Abstract state of the Qdrant service: which collections exist and
the ordered log of calls issued so far. -/
structure QdrantState where
  collections : List String
  calls : List QdrantCall
deriving DecidableEq, Repr

/-- `QdrantDataLoader._load` for one dataset: check collection
existence; if absent, create it (cosine distance, embedding-size
vectors) — recorded in the call log and in the existing-collection set —
then build the payloads and documents over the clean messages and issue
one bulk `upload_collection` call.  `none` models the `ValueError`
propagating out of the metadata comprehension when some message date is
calendar-invalid. -/
def QdrantDataLoader.load (collection_name : String) (vectorSize : Nat)
    (wa_data : WhatsappData) (st : QdrantState) : Option QdrantState :=
  let st1 :=
    if st.collections.contains collection_name then st
    else ⟨collection_name :: st.collections,
          st.calls ++ [QdrantCall.createCollection collection_name vectorSize "Cosine"]⟩
  match buildPayloads wa_data.clean_messages, buildDocs wa_data.clean_messages with
  | some pls, some docs =>
    some ⟨st1.collections,
          st1.calls ++ [QdrantCall.uploadCollection collection_name docs pls]⟩
  | _, _ => none

/-- A sequence of persist operations against the same collection name,
as produced by one or more `load_data` runs of a `QdrantDataLoader`. -/
def QdrantDataLoader.loadSeq (collection_name : String) (vectorSize : Nat) :
    List WhatsappData → QdrantState → Option QdrantState
  | [], st => some st
  | d :: ds, st =>
    match QdrantDataLoader.load collection_name vectorSize d st with
    | some st' => QdrantDataLoader.loadSeq collection_name vectorSize ds st'
    | none => none

/-- Whether a character list contains the two-character sequence `": "`
(colon, space) — the delimiter that ends the sender group. -/
def containsColonSpace : List Char → Bool
  | [] => false
  | c :: rest =>
    if c = ':' ∧ rest.head? = some ' ' then true else containsColonSpace rest

/-! ### Helper lemmas about the regex model -/

theorem dotStarDollar_of_no_newline {l : List Char} (h : l.contains '\n' = false) :
    dotStarDollar l = some l := by
  unfold dotStarDollar
  rw [h]
  rfl

theorem containsColonSpace_cons_false {c : Char} {s : List Char}
    (h : containsColonSpace (c :: s) = false) :
    ¬(c = ':' ∧ s.head? = some ' ') ∧ containsColonSpace s = false := by
  rw [containsColonSpace] at h
  split at h
  · exact absurd h (by simp)
  · exact ⟨by assumption, h⟩

theorem findSplit_of_no_colon_space {l : List Char} (h : containsColonSpace l = false)
    (acc : List Char) : findSplit acc l = none := by
  induction l generalizing acc with
  | nil => rfl
  | cons c rest ih =>
    obtain ⟨hcond, hrest⟩ := containsColonSpace_cons_false h
    rw [findSplit, if_neg (by rintro ⟨h1, h2, -⟩; exact hcond ⟨h1, h2⟩)]
    split
    · rfl
    · exact ih hrest _

theorem containsColonSpace_append_colon {l : List Char}
    (h : containsColonSpace l = false) :
    containsColonSpace (l ++ [':']) = false := by
  induction l with
  | nil => rfl
  | cons c rest ih =>
    obtain ⟨hcond, hrest⟩ := containsColonSpace_cons_false h
    rw [List.cons_append, containsColonSpace, if_neg, ih hrest]
    rintro ⟨h1, h2⟩
    cases rest with
    | nil => simp at h2
    | cons a t => exact hcond ⟨h1, by simpa using h2⟩

theorem findSplit_boundary {sender content : List Char}
    (hs : containsColonSpace sender = false)
    (hn : sender.contains '\n' = false)
    (hc : content.contains '\n' = false) (acc : List Char) :
    findSplit acc (sender ++ ':' :: ' ' :: content) =
      some (acc.reverse ++ sender, content) := by
  induction sender generalizing acc with
  | nil =>
    rw [List.nil_append, findSplit,
      if_pos ⟨rfl, rfl, by rw [List.tail_cons, dotStarDollar_of_no_newline hc]; rfl⟩]
    rw [List.tail_cons, dotStarDollar_of_no_newline hc]
    simp
  | cons c s ih =>
    obtain ⟨hcond, hs'⟩ := containsColonSpace_cons_false hs
    simp only [List.contains_cons, Bool.or_eq_false_iff, beq_eq_false_iff_ne] at hn
    rw [List.cons_append, findSplit, if_neg, if_neg (by simpa using hn.1.symm)]
    · rw [ih hs' hn.2 (c :: acc)]
      simp
    · rintro ⟨h1, h2, -⟩
      cases s with
      | nil => simp at h2
      | cons a t => exact hcond ⟨h1, by simpa using h2⟩

/-! ### Claim theorems -/

/-- C7: for every Dataset, `clean_messages` is exactly the
order-preserving filter of `messages` that keeps the messages whose
content is not in the active placeholder list (so it is a sublist of
`messages`, recomputed on access rather than stored), and its length is
`total_messages` minus the number of messages whose content is in the
placeholder list.  `WhatsappData` is immutable — no operation of the
class mutates `messages` or the placeholder list — so the identity holds
at every point of a dataset's lifetime. -/
theorem clean_messages_filter_invariant (d : WhatsappData) :
    d.clean_messages =
      d.messages.filter (fun m => !d.not_found_placeholders.contains m.content) ∧
    d.clean_messages.Sublist d.messages ∧
    d.total_clean_messages =
      d.total_messages -
        (d.messages.filter
          (fun m => d.not_found_placeholders.contains m.content)).length := by
  refine ⟨rfl, List.filter_sublist _, ?_⟩
  have h := List.length_eq_length_filter_add
    (l := d.messages) (fun m => d.not_found_placeholders.contains m.content)
  simp only [WhatsappData.total_clean_messages, WhatsappData.total_messages,
    WhatsappData.clean_messages]
  omega

/-- C4: whenever the single-line parser fails, the failure is an
`InvalidRowError` (the parser's only error type, by the codomain of
`WhatsappMessage.from_raw`) whose `row` field is the input line verbatim
and whose reason is the fixed format message. -/
theorem from_raw_error_row_verbatim (s : String) (e : InvalidRowError)
    (h : WhatsappMessage.from_raw s = .error e) :
    e.row = s ∧ e.reason = "Message does not match expected format." := by
  unfold WhatsappMessage.from_raw at h
  split at h
  · cases h
    exact ⟨rfl, rfl⟩
  · cases h

/-- Witness for C4 at Scenario C: `not a valid line` fails with an
`InvalidRowError` whose `row` is the input verbatim. -/
theorem from_raw_error_row_verbatim_witness :
    WhatsappMessage.from_raw "not a valid line" =
      .error ⟨"not a valid line", "Message does not match expected format."⟩ ∧
    (⟨"not a valid line", "Message does not match expected format."⟩ :
        InvalidRowError).row = "not a valid line" :=
  ⟨rfl, (from_raw_error_row_verbatim "not a valid line" _ rfl).1⟩

theorem matchHeader_eq (d1 d2 m1 m2 y1 y2 h1 h2 n1 n2 s1 s2 : Char)
    (rest : List Char)
    (hd1 : d1.isDigit = true) (hd2 : d2.isDigit = true)
    (hm1 : m1.isDigit = true) (hm2 : m2.isDigit = true)
    (hy1 : y1.isDigit = true) (hy2 : y2.isDigit = true)
    (hh1 : h1.isDigit = true) (hh2 : h2.isDigit = true)
    (hn1 : n1.isDigit = true) (hn2 : n2.isDigit = true)
    (hs1 : s1.isDigit = true) (hs2 : s2.isDigit = true) :
    matchHeader ('[' :: d1 :: d2 :: '/' :: m1 :: m2 :: '/' :: y1 :: y2 :: ',' :: ' ' ::
        h1 :: h2 :: ':' :: n1 :: n2 :: ':' :: s1 :: s2 :: ']' :: ' ' :: rest) =
      some (String.mk [d1, d2, '/', m1, m2, '/', y1, y2],
            String.mk [h1, h2, ':', n1, n2, ':', s1, s2], rest) := by
  simp [matchHeader, hd1, hd2, hm1, hm2, hy1, hy2, hh1, hh2, hn1, hn2, hs1, hs2]

theorem fromRawCore_eq (d1 d2 m1 m2 y1 y2 h1 h2 n1 n2 s1 s2 : Char)
    (sender content : List Char)
    (hd1 : d1.isDigit = true) (hd2 : d2.isDigit = true)
    (hm1 : m1.isDigit = true) (hm2 : m2.isDigit = true)
    (hy1 : y1.isDigit = true) (hy2 : y2.isDigit = true)
    (hh1 : h1.isDigit = true) (hh2 : h2.isDigit = true)
    (hn1 : n1.isDigit = true) (hn2 : n2.isDigit = true)
    (hs1 : s1.isDigit = true) (hs2 : s2.isDigit = true)
    (hccs : containsColonSpace sender = false)
    (hsn : sender.contains '\n' = false)
    (hcn : content.contains '\n' = false) :
    fromRawCore ('[' :: d1 :: d2 :: '/' :: m1 :: m2 :: '/' :: y1 :: y2 :: ',' :: ' ' ::
        h1 :: h2 :: ':' :: n1 :: n2 :: ':' :: s1 :: s2 :: ']' :: ' ' ::
        (sender ++ ':' :: ' ' :: content)) =
      some (String.mk [d1, d2, '/', m1, m2, '/', y1, y2],
            String.mk [h1, h2, ':', n1, n2, ':', s1, s2],
            String.mk sender, String.mk content) := by
  unfold fromRawCore
  rw [matchHeader_eq d1 d2 m1 m2 y1 y2 h1 h2 n1 n2 s1 s2 _
    hd1 hd2 hm1 hm2 hy1 hy2 hh1 hh2 hn1 hn2 hs1 hs2]
  simp [findSplit_boundary hccs hsn hcn]

/-- C3: every line in the grammar
`[DD/MM/YY, HH:MM:SS] Sender: content` — digit components, a sender
holding no `": "` sequence, and (being one physical line) no embedded
newline — parses successfully, and the resulting record's `sender` and
`content` equal the corresponding substrings exactly, with no trimming;
concretely, `[01/02/23, 10:15:30] Alice: Hello there` yields sender
`Alice`, content `Hello there`, and a derived `message_date` of
2023-02-01. -/
theorem from_raw_grammar_roundtrip :
    (∀ (d1 d2 m1 m2 y1 y2 h1 h2 n1 n2 s1 s2 : Char) (sender content : List Char),
      d1.isDigit = true → d2.isDigit = true → m1.isDigit = true → m2.isDigit = true →
      y1.isDigit = true → y2.isDigit = true → h1.isDigit = true → h2.isDigit = true →
      n1.isDigit = true → n2.isDigit = true → s1.isDigit = true → s2.isDigit = true →
      containsColonSpace sender = false →
      sender.contains '\n' = false →
      content.contains '\n' = false →
      WhatsappMessage.from_raw
          (String.mk ('[' :: d1 :: d2 :: '/' :: m1 :: m2 :: '/' :: y1 :: y2 :: ',' :: ' ' ::
            h1 :: h2 :: ':' :: n1 :: n2 :: ':' :: s1 :: s2 :: ']' :: ' ' ::
            (sender ++ ':' :: ' ' :: content))) =
        .ok ⟨String.mk [d1, d2, '/', m1, m2, '/', y1, y2] ++ ", " ++
              String.mk [h1, h2, ':', n1, n2, ':', s1, s2],
             String.mk sender, String.mk content⟩) ∧
    WhatsappMessage.from_raw "[01/02/23, 10:15:30] Alice: Hello there" =
      .ok ⟨"01/02/23, 10:15:30", "Alice", "Hello there"⟩ ∧
    WhatsappMessage.message_date ⟨"01/02/23, 10:15:30", "Alice", "Hello there"⟩ =
      some ⟨2023, 2, 1⟩ := by
  refine ⟨?_, rfl, rfl⟩
  intro d1 d2 m1 m2 y1 y2 h1 h2 n1 n2 s1 s2 sender content
  intro hd1 hd2 hm1 hm2 hy1 hy2 hh1 hh2 hn1 hn2 hs1 hs2 hccs hsn hcn
  unfold WhatsappMessage.from_raw
  rw [show (String.mk ('[' :: d1 :: d2 :: '/' :: m1 :: m2 :: '/' :: y1 :: y2 :: ',' ::
      ' ' :: h1 :: h2 :: ':' :: n1 :: n2 :: ':' :: s1 :: s2 :: ']' :: ' ' ::
      (sender ++ ':' :: ' ' :: content))).data =
    ('[' :: d1 :: d2 :: '/' :: m1 :: m2 :: '/' :: y1 :: y2 :: ',' :: ' ' ::
      h1 :: h2 :: ':' :: n1 :: n2 :: ':' :: s1 :: s2 :: ']' :: ' ' ::
      (sender ++ ':' :: ' ' :: content)) from rfl]
  rw [fromRawCore_eq d1 d2 m1 m2 y1 y2 h1 h2 n1 n2 s1 s2 sender content
    hd1 hd2 hm1 hm2 hy1 hy2 hh1 hh2 hn1 hn2 hs1 hs2 hccs hsn hcn]

/-- Witness for C3: the universal part applied at Scenario A's line. -/
theorem from_raw_grammar_roundtrip_witness :
    WhatsappMessage.from_raw "[01/02/23, 10:15:30] Alice: Hello there" =
      .ok ⟨"01/02/23, 10:15:30", "Alice", "Hello there"⟩ :=
  from_raw_grammar_roundtrip.1 '0' '1' '0' '2' '2' '3' '1' '0' '1' '5' '3' '0'
    ['A', 'l', 'i', 'c', 'e'] "Hello there".data
    rfl rfl rfl rfl rfl rfl rfl rfl rfl rfl rfl rfl (by decide) (by decide) (by decide)

/-- C5: a grammar-valid line that ends in the sender's `": "` delimiter
followed by nothing parses successfully with empty content, while the
same line truncated to a bare `":"` (no content and no delimiter space
after the colon) fails with an `InvalidRowError`. -/
theorem from_raw_empty_content_vs_missing_space :
    (∀ (d1 d2 m1 m2 y1 y2 h1 h2 n1 n2 s1 s2 : Char) (sender : List Char),
      d1.isDigit = true → d2.isDigit = true → m1.isDigit = true → m2.isDigit = true →
      y1.isDigit = true → y2.isDigit = true → h1.isDigit = true → h2.isDigit = true →
      n1.isDigit = true → n2.isDigit = true → s1.isDigit = true → s2.isDigit = true →
      containsColonSpace sender = false →
      sender.contains '\n' = false →
      WhatsappMessage.from_raw
          (String.mk ('[' :: d1 :: d2 :: '/' :: m1 :: m2 :: '/' :: y1 :: y2 :: ',' :: ' ' ::
            h1 :: h2 :: ':' :: n1 :: n2 :: ':' :: s1 :: s2 :: ']' :: ' ' ::
            (sender ++ [':', ' ']))) =
        .ok ⟨String.mk [d1, d2, '/', m1, m2, '/', y1, y2] ++ ", " ++
              String.mk [h1, h2, ':', n1, n2, ':', s1, s2],
             String.mk sender, ""⟩) ∧
    (∀ (d1 d2 m1 m2 y1 y2 h1 h2 n1 n2 s1 s2 : Char) (sender : List Char),
      d1.isDigit = true → d2.isDigit = true → m1.isDigit = true → m2.isDigit = true →
      y1.isDigit = true → y2.isDigit = true → h1.isDigit = true → h2.isDigit = true →
      n1.isDigit = true → n2.isDigit = true → s1.isDigit = true → s2.isDigit = true →
      containsColonSpace sender = false →
      WhatsappMessage.from_raw
          (String.mk ('[' :: d1 :: d2 :: '/' :: m1 :: m2 :: '/' :: y1 :: y2 :: ',' :: ' ' ::
            h1 :: h2 :: ':' :: n1 :: n2 :: ':' :: s1 :: s2 :: ']' :: ' ' ::
            (sender ++ [':']))) =
        .error ⟨String.mk ('[' :: d1 :: d2 :: '/' :: m1 :: m2 :: '/' :: y1 :: y2 :: ',' ::
            ' ' :: h1 :: h2 :: ':' :: n1 :: n2 :: ':' :: s1 :: s2 :: ']' :: ' ' ::
            (sender ++ [':'])),
          "Message does not match expected format."⟩) := by
  constructor
  · intro d1 d2 m1 m2 y1 y2 h1 h2 n1 n2 s1 s2 sender
    intro hd1 hd2 hm1 hm2 hy1 hy2 hh1 hh2 hn1 hn2 hs1 hs2 hccs hsn
    exact from_raw_grammar_roundtrip.1 d1 d2 m1 m2 y1 y2 h1 h2 n1 n2 s1 s2
      sender [] hd1 hd2 hm1 hm2 hy1 hy2 hh1 hh2 hn1 hn2 hs1 hs2 hccs hsn rfl
  · intro d1 d2 m1 m2 y1 y2 h1 h2 n1 n2 s1 s2 sender
    intro hd1 hd2 hm1 hm2 hy1 hy2 hh1 hh2 hn1 hn2 hs1 hs2 hccs
    unfold WhatsappMessage.from_raw
    have hcore : fromRawCore ('[' :: d1 :: d2 :: '/' :: m1 :: m2 :: '/' :: y1 :: y2 ::
        ',' :: ' ' :: h1 :: h2 :: ':' :: n1 :: n2 :: ':' :: s1 :: s2 :: ']' :: ' ' ::
        (sender ++ [':'])) = none := by
      unfold fromRawCore
      rw [matchHeader_eq d1 d2 m1 m2 y1 y2 h1 h2 n1 n2 s1 s2 _
        hd1 hd2 hm1 hm2 hy1 hy2 hh1 hh2 hn1 hn2 hs1 hs2]
      simp [findSplit_of_no_colon_space (containsColonSpace_append_colon hccs)]
    rw [show (String.mk ('[' :: d1 :: d2 :: '/' :: m1 :: m2 :: '/' :: y1 :: y2 :: ',' ::
        ' ' :: h1 :: h2 :: ':' :: n1 :: n2 :: ':' :: s1 :: s2 :: ']' :: ' ' ::
        (sender ++ [':']))).data =
      ('[' :: d1 :: d2 :: '/' :: m1 :: m2 :: '/' :: y1 :: y2 :: ',' :: ' ' ::
        h1 :: h2 :: ':' :: n1 :: n2 :: ':' :: s1 :: s2 :: ']' :: ' ' ::
        (sender ++ [':'])) from rfl]
    rw [hcore]

/-- Witness for C5: both halves at the sender `Alice`. -/
theorem from_raw_empty_content_vs_missing_space_witness :
    WhatsappMessage.from_raw "[01/02/23, 10:15:30] Alice: " =
      .ok ⟨"01/02/23, 10:15:30", "Alice", ""⟩ ∧
    WhatsappMessage.from_raw "[01/02/23, 10:15:30] Alice:" =
      .error ⟨"[01/02/23, 10:15:30] Alice:",
        "Message does not match expected format."⟩ :=
  ⟨from_raw_empty_content_vs_missing_space.1 '0' '1' '0' '2' '2' '3' '1' '0' '1' '5'
      '3' '0' ['A', 'l', 'i', 'c', 'e']
      rfl rfl rfl rfl rfl rfl rfl rfl rfl rfl rfl rfl (by decide) (by decide),
   from_raw_empty_content_vs_missing_space.2 '0' '1' '0' '2' '2' '3' '1' '0' '1' '5'
      '3' '0' ['A', 'l', 'i', 'c', 'e']
      rfl rfl rfl rfl rfl rfl rfl rfl rfl rfl rfl rfl (by decide)⟩

/-- C1: the claim says that with `raise_errors` false, unreadable files
are skipped with a warning and the remaining files are still persisted.
The code's `except InvalidRowError` clause cannot catch the `OSError` of
an unreadable file (and `from_txt_file` swallows every `InvalidRowError`
itself, so the clause is dead code): loading files `f1, f2, f3` with
`f2` unreadable in non-strict mode persists only `f1`, raises
`OSError` at `f2`, never reaches `f3`, and logs nothing. -/
theorem load_data_nonstrict_unreadable_file_aborts :
    loadData
        (fun p => if p = "f2" then none
                  else some ["[01/02/23, 10:15:30] Alice: Hello there"])
        ["f1", "f2", "f3"] false =
      ([WhatsappData.from_txt_file
          ["[01/02/23, 10:15:30] Alice: Hello there"] "en"],
       some (PyError.osError "f2")) := by
  rfl

/-- C2: the claim says a loader constructed with `raise_errors = True`
runs in strict mode.  Both concrete subclasses forward the flag
positionally in `super().__init__(wa_files, raise_errors, ...)`, where
it is absorbed by the parent's `*args`; the parent's keyword-only
`raise_errors` keeps its default, so the constructed loader always has
`raise_errors = False` and strict mode is unreachable. -/
theorem raise_errors_flag_dropped_by_subclass_init :
    (InMemoryDataLoader.init ["chat.txt"] true).raise_errors = false ∧
    (QdrantDataLoader.init ["chat.txt"] true).raise_errors = false :=
  ⟨rfl, rfl⟩

/-- C6 counterexample: the line `[31/04/23, 10:15:30] Alice: Hi` matches
the grammar but names an impossible calendar date; contrary to the
claim, batch construction does not exclude it — the resulting Dataset's
`messages` list contains exactly that message (the date derivation is a
lazy `cached_property`, not evaluated during `from_txt_file`). -/
theorem invalid_calendar_line_not_excluded :
    WhatsappMessage.from_raw "[31/04/23, 10:15:30] Alice: Hi" =
      .ok ⟨"31/04/23, 10:15:30", "Alice", "Hi"⟩ ∧
    WhatsappMessage.message_date ⟨"31/04/23, 10:15:30", "Alice", "Hi"⟩ = none ∧
    (WhatsappData.from_txt_file ["[31/04/23, 10:15:30] Alice: Hi"] "en").messages =
      [⟨"31/04/23, 10:15:30", "Alice", "Hi"⟩] ∧
    (WhatsappData.from_txt_file
        ["[31/04/23, 10:15:30] Alice: Hi"] "en").messages ≠ [] := by
  refine ⟨rfl, rfl, rfl, ?_⟩
  decide

/-- C6 amended: for a grammar-valid line with an impossible calendar
date the match succeeds and the line is included in the Dataset's
messages; the calendar-normalization failure is not surfaced at batch
construction but only when the derived date is computed — `message_date`
and `rich_content` fail, and a vector-store persist of such a dataset
fails as a whole. -/
theorem invalid_calendar_two_stage_failure :
    WhatsappMessage.from_raw "[31/04/23, 10:15:30] Alice: Hi" =
      .ok ⟨"31/04/23, 10:15:30", "Alice", "Hi"⟩ ∧
    (WhatsappData.from_txt_file ["[31/04/23, 10:15:30] Alice: Hi"] "en").messages =
      [⟨"31/04/23, 10:15:30", "Alice", "Hi"⟩] ∧
    WhatsappMessage.message_date ⟨"31/04/23, 10:15:30", "Alice", "Hi"⟩ = none ∧
    WhatsappMessage.rich_content ⟨"31/04/23, 10:15:30", "Alice", "Hi"⟩ = none ∧
    QdrantDataLoader.load "whatsvector_collection" 1024
        (WhatsappData.from_txt_file ["[31/04/23, 10:15:30] Alice: Hi"] "en")
        ⟨[], []⟩ = none :=
  ⟨rfl, rfl, rfl, rfl, rfl⟩

/-- C8: for a message with a valid derived date, the persist step builds
an embeddable document equal to the message's `rich_content` string and
a metadata payload of exactly the four fields `sender`, `when` (full
weekday name, zero-padded day, full month name, year), `content` (raw
text) and `document` (the same `rich_content` string); `rich_content`
contains the weekday name matching the message's derived date.  At the
dataset level, the documents of the upload call are pointwise the
`document` entries of its payloads. -/
theorem qdrant_payload_shape_and_weekday :
    (∀ (m : WhatsappMessage) (dt : PyDate), m.message_date = some dt →
      ∃ rc, m.rich_content = some rc ∧
        payloadOf m = some ⟨m.sender, strftime_AdBY dt, m.content, rc⟩ ∧
        ∃ pre post, rc.data = pre ++ (weekdayName (pyWeekday dt)).data ++ post) ∧
    (∀ (msgs : List WhatsappMessage) (docs : List String)
        (pls : List QdrantPayload),
      buildDocs msgs = some docs → buildPayloads msgs = some pls →
      docs = pls.map QdrantPayload.document) := by
  constructor
  · intro m dt h
    refine ⟨"Sender: " ++ m.sender ++ "\nWhen: " ++ strftime_AdBY dt ++
      "\nMessage: " ++ m.content, ?_, ?_, ?_⟩
    · simp [WhatsappMessage.rich_content, h]
    · simp [payloadOf, WhatsappMessage.rich_content, h]
    · refine ⟨("Sender: " ++ m.sender ++ "\nWhen: ").data,
        (", " ++ pad2 dt.day ++ " " ++ monthName dt.month ++ " " ++
          toString dt.year ++ "\nMessage: " ++ m.content).data, ?_⟩
      simp [strftime_AdBY, String.data_append]
  · intro msgs
    induction msgs with
    | nil =>
      intro docs pls h1 h2
      simp only [buildDocs, buildPayloads, List.mapM_nil, pure,
        Option.some.injEq] at h1 h2
      subst h1; subst h2; rfl
    | cons m t ih =>
      intro docs pls h1 h2
      simp only [buildDocs, List.mapM_cons, bind, Option.bind_eq_some, pure,
        Option.some.injEq] at h1
      obtain ⟨rc, hrc, ds, hds, rfl⟩ := h1
      simp only [buildPayloads, List.mapM_cons, bind, Option.bind_eq_some, pure,
        Option.some.injEq] at h2
      obtain ⟨p, hp, ps, hps, rfl⟩ := h2
      obtain ⟨dt, hdt, rfl⟩ :
          ∃ dt, m.message_date = some dt ∧
            rc = "Sender: " ++ m.sender ++ "\nWhen: " ++ strftime_AdBY dt ++
              "\nMessage: " ++ m.content := by
        unfold WhatsappMessage.rich_content at hrc
        obtain ⟨dt, hdt, hrc'⟩ := Option.map_eq_some'.mp hrc
        exact ⟨dt, hdt, hrc'.symm⟩
      have hpval : p = ⟨m.sender, strftime_AdBY dt, m.content,
          "Sender: " ++ m.sender ++ "\nWhen: " ++ strftime_AdBY dt ++
            "\nMessage: " ++ m.content⟩ := by
        unfold payloadOf at hp
        rw [hdt] at hp
        unfold WhatsappMessage.rich_content at hp
        rw [hdt] at hp
        simpa using hp.symm
      rw [List.map_cons, hpval, ih ds ps hds hps]

/-- Witness for C8: both parts at Scenario A's message (date
2023-02-01, a Wednesday) and at the singleton message list. -/
theorem qdrant_payload_shape_and_weekday_witness :
    (∃ rc,
      WhatsappMessage.rich_content
          ⟨"01/02/23, 10:15:30", "Alice", "Hello there"⟩ = some rc ∧
      payloadOf ⟨"01/02/23, 10:15:30", "Alice", "Hello there"⟩ =
        some ⟨"Alice", strftime_AdBY ⟨2023, 2, 1⟩, "Hello there", rc⟩ ∧
      ∃ pre post, rc.data =
        pre ++ (weekdayName (pyWeekday ⟨2023, 2, 1⟩)).data ++ post) ∧
    ([("Sender: Alice\nWhen: Wednesday, 01 February 2023\nMessage: Hello there" :
        String)] =
      ([⟨"Alice", "Wednesday, 01 February 2023", "Hello there",
          "Sender: Alice\nWhen: Wednesday, 01 February 2023\nMessage: Hello there"⟩] :
        List QdrantPayload).map QdrantPayload.document) :=
  ⟨qdrant_payload_shape_and_weekday.1 ⟨"01/02/23, 10:15:30", "Alice", "Hello there"⟩
      ⟨2023, 2, 1⟩ rfl,
   qdrant_payload_shape_and_weekday.2
      [⟨"01/02/23, 10:15:30", "Alice", "Hello there"⟩] _ _ rfl rfl⟩

theorem qdrant_load_calls {cname : String} {vecSize : Nat} {d : WhatsappData}
    {st st' : QdrantState}
    (h : QdrantDataLoader.load cname vecSize d st = some st') :
    (st.collections.contains cname = true →
      st'.collections = st.collections ∧
      ∃ docs pls, st'.calls =
        st.calls ++ [QdrantCall.uploadCollection cname docs pls]) ∧
    (st.collections.contains cname = false →
      st'.collections = cname :: st.collections ∧
      ∃ docs pls, st'.calls =
        st.calls ++ [QdrantCall.createCollection cname vecSize "Cosine",
                     QdrantCall.uploadCollection cname docs pls]) := by
  unfold QdrantDataLoader.load at h
  constructor
  · intro hc
    rw [if_pos hc] at h
    split at h
    · cases h
      exact ⟨rfl, _, _, rfl⟩
    · cases h
  · intro hc
    rw [hc] at h
    simp only [Bool.false_eq_true, if_false] at h
    split at h
    · rename_i pls docs hpls hdocs
      cases h
      exact ⟨rfl, docs, pls, by simp⟩
    · cases h

theorem qdrant_loadSeq_existing {cname : String} {vecSize : Nat} :
    ∀ (ds : List WhatsappData) (st st' : QdrantState),
      st.collections.contains cname = true →
      QdrantDataLoader.loadSeq cname vecSize ds st = some st' →
      st'.collections = st.collections ∧
      ∃ ups, (∀ u ∈ ups, u.isUpload = true) ∧ st'.calls = st.calls ++ ups := by
  intro ds
  induction ds with
  | nil =>
    intro st st' _ h
    cases h
    exact ⟨rfl, [], by simp, by simp⟩
  | cons d t ih =>
    intro st st' hc h
    rw [QdrantDataLoader.loadSeq] at h
    split at h
    · rename_i st1 h1
      obtain ⟨hcol, docs, pls, hcalls⟩ := (qdrant_load_calls h1).1 hc
      obtain ⟨hcol', ups, hups, hcalls'⟩ := ih st1 st' (hcol ▸ hc) h
      refine ⟨hcol'.trans hcol, QdrantCall.uploadCollection cname docs pls :: ups, ?_, ?_⟩
      · intro u hu
        rcases List.mem_cons.mp hu with rfl | hu'
        · rfl
        · exact hups u hu'
      · rw [hcalls', hcalls]
        simp
    · cases h

/-- C9: over any successful sequence of persist operations against the
modelled vector-store service sharing one collection name: if the name
already exists, the sequence issues zero `create_collection` calls (only
uploads); if the name does not yet exist and at least one persist runs,
exactly one `create_collection` call is issued and it precedes every
`upload_documents` call of the sequence. -/
theorem create_collection_once_before_uploads
    (cname : String) (vecSize : Nat) (ds : List WhatsappData)
    (st st' : QdrantState)
    (h : QdrantDataLoader.loadSeq cname vecSize ds st = some st') :
    (st.collections.contains cname = true →
      ∃ ups, (∀ u ∈ ups, u.isUpload = true) ∧ st'.calls = st.calls ++ ups) ∧
    (st.collections.contains cname = false → ds ≠ [] →
      ∃ ups, (∀ u ∈ ups, u.isUpload = true) ∧
        st'.calls = st.calls ++
          QdrantCall.createCollection cname vecSize "Cosine" :: ups) := by
  constructor
  · intro hc
    exact (qdrant_loadSeq_existing ds st st' hc h).2
  · intro hc hne
    cases ds with
    | nil => exact absurd rfl hne
    | cons d t =>
      rw [QdrantDataLoader.loadSeq] at h
      split at h
      · rename_i st1 h1
        obtain ⟨hcol, docs, pls, hcalls⟩ := (qdrant_load_calls h1).2 hc
        have hc1 : st1.collections.contains cname = true := by
          rw [hcol]; simp
        obtain ⟨-, ups, hups, hcalls'⟩ := qdrant_loadSeq_existing t st1 st' hc1 h
        refine ⟨QdrantCall.uploadCollection cname docs pls :: ups, ?_, ?_⟩
        · intro u hu
          rcases List.mem_cons.mp hu with rfl | hu'
          · rfl
          · exact hups u hu'
        · rw [hcalls', hcalls]
          simp
      · cases h

/-- Witness for C9: two persists of empty datasets into a fresh state
issue one create call followed by the two upload calls. -/
theorem create_collection_once_before_uploads_witness :
    ∃ ups, (∀ u ∈ ups, u.isUpload = true) ∧
      (QdrantState.mk ["whatsvector_collection"]
        [QdrantCall.createCollection "whatsvector_collection" 1024 "Cosine",
         QdrantCall.uploadCollection "whatsvector_collection" [] [],
         QdrantCall.uploadCollection "whatsvector_collection" [] []]).calls =
      ([] : List QdrantCall) ++
        QdrantCall.createCollection "whatsvector_collection" 1024 "Cosine" :: ups :=
  (create_collection_once_before_uploads "whatsvector_collection" 1024
      [⟨[], enPlaceholders⟩, ⟨[], enPlaceholders⟩] ⟨[], []⟩
      ⟨["whatsvector_collection"],
        [QdrantCall.createCollection "whatsvector_collection" 1024 "Cosine",
         QdrantCall.uploadCollection "whatsvector_collection" [] [],
         QdrantCall.uploadCollection "whatsvector_collection" [] []]⟩
      rfl).2 rfl (by simp)

theorem from_txt_file_en_placeholders (lines : List String) :
    (WhatsappData.from_txt_file lines "en").not_found_placeholders =
      enPlaceholders := rfl

/-- C10: every Dataset constructed through `DataLoader.load_data` (any
variant) comes from `WhatsappData.from_txt_file(wa_file)` with the
language argument left at its default `"en"`, so its active placeholder
list is always the English one; the Italian placeholder set is
unreachable through the loader interface even though batch construction
accepts a language parameter. -/
theorem loader_always_english_placeholders
    (fs : String → Option (List String)) (wa_files : List String)
    (raise_errors : Bool) (d : WhatsappData)
    (hd : d ∈ (loadData fs wa_files raise_errors).1) :
    d.not_found_placeholders = enPlaceholders := by
  induction wa_files with
  | nil => simp [loadData] at hd
  | cons f t ih =>
    rw [loadData] at hd
    split at hd
    · rcases List.mem_cons.mp hd with rfl | hd'
      · exact from_txt_file_en_placeholders _
      · exact ih hd'
    · split at hd
      · exact ih hd
      · simp at hd

/-- Witness for C10: the loader run over one readable empty file
produces a dataset carrying the English placeholder list. -/
theorem loader_always_english_placeholders_witness :
    (WhatsappData.from_txt_file [] "en").not_found_placeholders =
      enPlaceholders :=
  loader_always_english_placeholders (fun _ => some []) ["f"] false
    (WhatsappData.from_txt_file [] "en") (by simp [loadData, readTxtFile])

end WhatsVector
